import Mathlib

/- Shallow embedding of the bevy_bootloader repository: the batch asset
loader from src/loader.rs and the boot-progress smoother from src/boot.rs.

Modelling conventions:
- The asset server (external loading backend) derives the handle for a
  request deterministically from the path passed to load_untyped, so
  handles are identified with their path string. A backend is then just
  the map from paths to the load state reported by get_load_state at one
  instant; successive ticks may use different backends.
- The complete_queue is a HashMap from path to handle; since the handle
  is the path itself, it is modelled by its key set (a list with unique
  keys, insertion deduplicated like HashMap::insert).
- The count field is an AtomicUsize; fetch_sub wraps on a 64-bit usize,
  modelled by usizeSub. The unchecked usize subtraction inside progress
  is a panic when it underflows, modelled by Option.
- Panicking operations (enqueue and submit assert on the state) return
  Except, with the error carrying the loader as left behind by the
  partial mutation that precedes the failed assertion.
- f32 arithmetic in boot.rs is modelled over the rationals.
-/

/-- Load state reported by the asset server for a handle
(bevy::asset::LoadState). -/
inductive LoadState where
  | NotLoaded
  | Loading
  | Loaded
  | Failed
  | Unloaded
deriving DecidableEq

/-- Loader lifecycle state (enum State in src/loader.rs). -/
inductive State where
  | Ready
  | Loading
  | Done
deriving DecidableEq

/-- The external loading backend as observed through get_load_state:
for each request path, the load state its handle reports at one instant. -/
def Backend : Type := String → LoadState

/-- The Loader component of src/loader.rs. Queues hold request paths;
the backend handle paired with each path is the path itself. -/
structure Loader where
  state : State
  count : Nat
  total : Nat
  request_queue : List String
  work_queue : List String
  complete_queue : List String
deriving DecidableEq

/-- Wrapping decrement of a 64-bit usize, as AtomicUsize fetch_sub
performs on underflow. -/
def usizeSub (n : Nat) : Nat := if n = 0 then 2 ^ 64 - 1 else n - 1

/-- Key set update of HashMap::insert on the complete queue: the key is
added if absent; inserting an existing key only replaces its value. -/
def insertKey (k : String) (m : List String) : List String :=
  if k ∈ m then m else k :: m

namespace Loader

/-- Loader::new, via Default: idle state, zero counts, empty queues. -/
def new : Loader :=
  { state := State.Ready, count := 0, total := 0,
    request_queue := [], work_queue := [], complete_queue := [] }

/-- Loader::reset (src/loader.rs lines 109-119): when not Ready, clear
every queue, zero count and total, and return to Ready; a no-op when
already Ready. -/
def reset (l : Loader) : Loader :=
  if l.state = State.Ready then l
  else
    { state := State.Ready, count := 0, total := 0,
      request_queue := [], work_queue := [], complete_queue := [] }

/-- Loader::enqueue (lines 126-136): asserts Ready before any mutation,
then pushes the path on the request queue and increments count. The
error case carries the loader unchanged, since the assert fires first. -/
def enqueue (l : Loader) (path : String) : Except Loader Loader :=
  if l.state = State.Ready then
    Except.ok { l with request_queue := l.request_queue ++ [path],
                       count := (l.count + 1) % 2 ^ 64 }
  else Except.error l

/-- Loader::submit (lines 146-151): total is assigned from the request
queue length BEFORE the Ready assertion, so a failed submit still
overwrites total; on success the state moves to Loading. -/
def submit (l : Loader) : Except Loader Loader :=
  let l1 := { l with total := l.request_queue.length }
  if l.state = State.Ready then Except.ok { l1 with state := State.Loading }
  else Except.error l1

/-- Loader::pending_count: the live count of unresolved requests. -/
def pending_count (l : Loader) : Nat := l.count

/-- Loader::total_count: the total frozen at submit time. -/
def total_count (l : Loader) : Nat := l.total

/-- Loader::is_empty: pending_count == 0. -/
def is_empty (l : Loader) : Bool := l.pending_count == 0

/-- Loader::is_done: state == Done. -/
def is_done (l : Loader) : Bool := decide (l.state = State.Done)

/-- Loader::is_loaded: the path has an entry in the complete queue. -/
def is_loaded (l : Loader) (path : String) : Bool :=
  l.complete_queue.contains path

/-- Loader::take: remove and return the handle for the path from the
complete queue, if present. -/
def take (l : Loader) (path : String) : Option String × Loader :=
  if l.complete_queue.contains path then
    (some path, { l with complete_queue := l.complete_queue.erase path })
  else (none, l)

/-- Loader::progress (lines 181-188): (total - remain) / total when
total > 0, else 1. The subtraction total - remain is unchecked usize
arithmetic and underflows when remain > total, modelled as none. -/
def progress (l : Loader) : Option ℚ :=
  if 0 < l.total then
    if l.count ≤ l.total then
      some (((l.total - l.count : Nat) : ℚ) / (l.total : ℚ))
    else none
  else some 1

/-- First loop of Loader::tick (lines 230-251): scan the given work
queue entries in order; entries whose backend state is Loaded or Failed
move to the complete queue and decrement count (fetch_sub returning 1,
i.e. count = 1 before the decrement, transitions the state to Done);
other entries are kept, in order, in front of the work queue of the
accumulator. Call with the work queue entries split out of the loader. -/
def tickWork (b : Backend) : List String → Loader → Loader
  | [], l => l
  | path :: rest, l =>
    if b path = LoadState.Loaded ∨ b path = LoadState.Failed then
      tickWork b rest
        { l with complete_queue := insertKey path l.complete_queue,
                 state := if l.count = 1 then State.Done else l.state,
                 count := usizeSub l.count }
    else
      let l1 := tickWork b rest l
      { l1 with work_queue := path :: l1.work_queue }

/-- Second loop of Loader::tick (lines 258-275): drain the swapped-out
request queue snapshot; a path whose backend state right after
load_untyped is NotLoaded or Loading is pushed on the work queue, while
a path already Loaded, Failed or Unloaded only decrements count (no
Done transition, and no complete queue entry). -/
def tickRequests (b : Backend) : List String → Loader → Loader
  | [], l => l
  | path :: rest, l =>
    match b path with
    | LoadState.NotLoaded | LoadState.Loading =>
      tickRequests b rest { l with work_queue := l.work_queue ++ [path] }
    | LoadState.Loaded | LoadState.Failed | LoadState.Unloaded =>
      tickRequests b rest { l with count := usizeSub l.count }

/-- Loader::tick (lines 228-276): process the work queue, then swap the
request queue for an empty one and drain the snapshot. -/
def tick (l : Loader) (b : Backend) : Loader :=
  let l1 := tickWork b l.work_queue { l with work_queue := [] }
  tickRequests b l.request_queue { l1 with request_queue := [] }

end Loader

/-- The Boot component of src/boot.rs. The entities list of boot-screen
entity ids plays no role in progress bookkeeping; entity ids are Nat. -/
structure Boot where
  progress : ℚ
  smoothed_progress : ℚ
  speed : ℚ
  entities : List Nat
deriving DecidableEq

namespace Boot

/-- Boot::new, via Default: zero progress, speed 1 (100% per second). -/
def new : Boot :=
  { progress := 0, smoothed_progress := 0, speed := 1, entities := [] }

/-- Boot::set_progress (src/boot.rs lines 68-73): clamp the raw value to
[0, 1], advance the smoothed value by dt times the remaining gap divided
by speed, then cap it at the clamped raw value. -/
def set_progress (b : Boot) (progress dt : ℚ) : Boot :=
  let p := if progress < 0 then 0 else if 1 < progress then 1 else progress
  let delta_p := (p - b.smoothed_progress) / b.speed
  let sp := b.smoothed_progress + dt * delta_p
  { b with progress := p, smoothed_progress := min sp p }

end Boot

/-- The upper-bound progress computed by update_boot (src/boot.rs lines
189-195) and fed to Boot::set_progress: (total - remain + 1) / total
when total > 0 and remain < total, else 1. -/
def upperBound (l : Loader) : ℚ :=
  let total := l.total_count
  let remain := l.pending_count
  if 0 < total ∧ remain < total then
    ((total - remain + 1 : Nat) : ℚ) / (total : ℚ)
  else 1

/-- The upper-bound progress as section 4.3 of the spec words it, for
comparison with the implementation: (total - pending + 1) / total when
0 < pending < total, else 1. -/
def specUpperBound (l : Loader) : ℚ :=
  if 0 < l.pending_count ∧ l.pending_count < l.total_count then
    ((l.total_count - l.pending_count + 1 : Nat) : ℚ) / (l.total_count : ℚ)
  else 1

/-- A backend reporting every handle as already loaded. -/
def bAllLoaded : Backend := fun _ => LoadState.Loaded

/-- A backend reporting every handle as still loading. -/
def bAllLoading : Backend := fun _ => LoadState.Loading

/-- A backend reporting every handle as failed. -/
def bAllFailed : Backend := fun _ => LoadState.Failed

/-- Does the backend state of a freshly started request keep it on the
work queue (the NotLoaded and Loading arms of tick, lines 263-274)? -/
def wantsWork (b : Backend) (p : String) : Bool :=
  match b p with
  | LoadState.NotLoaded | LoadState.Loading => true
  | LoadState.Loaded | LoadState.Failed | LoadState.Unloaded => false

/-- All request paths a loader currently tracks, across its three
queues. -/
def tracked (l : Loader) : List String :=
  l.request_queue ++ (l.work_queue ++ l.complete_queue)

/-- Queue sanity: every tracked path appears at most once, in at most
one of the three queues. -/
def QueuesOk (l : Loader) : Prop := (tracked l).Nodup

/-- One non-panicking loader operation, with enqueue restricted to paths
the loader does not already track. -/
inductive Step : Loader → Loader → Prop where
  | enqueue : ∀ (l : Loader) (k : String) (l' : Loader),
      k ∉ tracked l → Loader.enqueue l k = Except.ok l' → Step l l'
  | submit : ∀ (l l' : Loader), Loader.submit l = Except.ok l' → Step l l'
  | tick : ∀ (l : Loader) (b : Backend), Step l (Loader.tick l b)
  | take : ∀ (l : Loader) (k : String), Step l (Loader.take l k).2
  | reset : ∀ l : Loader, Step l (Loader.reset l)

/-- Feed a sequence of (raw value, time delta) pairs to
Boot::set_progress. -/
def runUpdates (b : Boot) (steps : List (ℚ × ℚ)) : Boot :=
  steps.foldl (fun acc s => acc.set_progress s.1 s.2) b

/-- Enqueue one request and submit, then tick while the backend already
reports the path as loaded: the synchronous-resolution path of tick. -/
def c1run : Except Loader Loader :=
  ((Loader.new.enqueue "a").bind Loader.submit).map (fun l => l.tick bAllLoaded)

/-- The backend of the spec scenario of section 8: a loaded, b loading,
c failed. -/
def bScenario : Backend := fun s =>
  if s = "a" then LoadState.Loaded
  else if s = "b" then LoadState.Loading
  else LoadState.Failed

/-- Enqueue a, b, c and submit: total 3, pending 3. -/
def c2batch : Except Loader Loader :=
  (((Loader.new.enqueue "a").bind (fun l => l.enqueue "b")).bind
      (fun l => l.enqueue "c")).bind Loader.submit

/-- The scenario batch after one tick against the scenario backend. -/
def c2afterFirst : Except Loader Loader := c2batch.map (fun l => l.tick bScenario)

/-- The scenario batch after a further tick with b now loaded. -/
def c2afterSecond : Except Loader Loader :=
  c2afterFirst.map (fun l => l.tick bAllLoaded)

/-- A loader with three submitted requests, all of which resolved
synchronously during the request drain of the first tick. -/
def c3loader : Loader :=
  { state := State.Loading, count := 0, total := 3,
    request_queue := [], work_queue := [], complete_queue := [] }

/-- A submitted loader mid-flight: three requests, one still pending. -/
def c3wit : Loader :=
  { state := State.Loading, count := 1, total := 3,
    request_queue := [], work_queue := ["b"], complete_queue := ["a", "c"] }

/-- Enqueue one request and submit, then tick while the backend already
reports the path as failed. -/
def c5run : Except Loader Loader :=
  ((Loader.new.enqueue "x").bind Loader.submit).map (fun l => l.tick bAllFailed)

/-- The loader c5run reaches: pending zero, state still Loading. -/
def c5stuck : Loader :=
  { state := State.Loading, count := 0, total := 1,
    request_queue := [], work_queue := [], complete_queue := [] }

/-- Enqueue the same path twice from the fresh loader. -/
def c7run : Except Loader Loader :=
  (Loader.new.enqueue "a").bind (fun l => l.enqueue "a")

/-- The loader c7run reaches: the path a twice in the request queue. -/
def c7dup : Loader :=
  { state := State.Ready, count := 2, total := 0,
    request_queue := ["a", "a"], work_queue := [], complete_queue := [] }

/-- The loader reached by the first enqueue of c7run. -/
def c7once : Loader :=
  { state := State.Ready, count := 1, total := 0,
    request_queue := ["a"], work_queue := [], complete_queue := [] }

/-- Enqueue a, submit, then tick while the backend is still loading: the
request moves to the work queue and the request queue drains. -/
def c8mid : Except Loader Loader :=
  ((Loader.new.enqueue "a").bind Loader.submit).map (fun l => l.tick bAllLoading)

/-- A second submit after the request queue drained: it panics, but only
after overwriting total with the new request queue length, zero. -/
def c8run : Except Loader Loader := c8mid.bind Loader.submit

/-- A submitted loader with one request on the work queue. -/
def c8work : Loader :=
  { state := State.Loading, count := 1, total := 1,
    request_queue := [], work_queue := ["a"], complete_queue := [] }

/-- Enqueue a, then tick before any submit: the loader is still Ready
but the request is already handed to the backend. -/
def c9afterTick : Except Loader Loader :=
  (Loader.new.enqueue "a").map (fun l => l.tick bAllLoading)

/-- After the premature tick, enqueue b and submit: total freezes at the
length of the request queue, which no longer counts a. -/
def c9run : Except Loader Loader :=
  c9afterTick.bind (fun l => (l.enqueue "b").bind Loader.submit)

/-- A loader with one unsubmitted enqueued request, still Ready. -/
def c10loader : Loader :=
  { state := State.Ready, count := 1, total := 0,
    request_queue := ["a"], work_queue := [], complete_queue := [] }

/-- A loader whose single pending request sits on the work queue. -/
def c1work : Loader :=
  { state := State.Loading, count := 1, total := 1,
    request_queue := [], work_queue := ["a"], complete_queue := [] }

/-- Claim C1, counterexample: enqueue one request, submit, then tick
while the backend already reports the path loaded. The request resolves
synchronously during the request drain of tick, which decrements count
without the Done transition, so the loader sits in Loading with
pending_count zero, refuting the invariant as stated. -/
theorem submitted_sync_tick_loading_pending_zero :
    c1run = Except.ok
      { state := State.Loading, count := 0, total := 1,
        request_queue := [], work_queue := [], complete_queue := [] } ∧
    c1run.map (fun l => (l.pending_count, l.is_done)) = Except.ok (0, false) :=
  ⟨rfl, rfl⟩

/-- Claim C2, counterexample: in the scenario of section 8 of the spec
(enqueue a, b, c; submit; tick with a loaded, b loading, c failed), the
first tick drains the request queue, and the terminal paths a and c
bypass the complete queue, so is_loaded a is false, not true. -/
theorem scenario_first_tick_a_not_loaded :
    c2afterFirst.map (fun l => l.is_loaded "a") = Except.ok false := rfl

/-- Claim C2, amended: the scenario of section 8 with the corrected
observations. After the first tick pending_count is 1 and is_done is
false as claimed, but is_loaded a and is_loaded c are false because
synchronously terminal requests never enter the complete queue; after a
further tick with b loaded, pending_count is 0, is_done is true, and b
(the only path that went through the work queue) is loaded. -/
theorem scenario_three_keys_two_ticks :
    c2afterFirst.map
        (fun l => (l.pending_count, l.is_loaded "a", l.is_loaded "c", l.is_done))
      = Except.ok (1, false, false, false) ∧
    c2afterSecond.map (fun l => (l.pending_count, l.is_done, l.is_loaded "b"))
      = Except.ok (0, true, true) :=
  ⟨rfl, rfl⟩

/-- Claim C3, counterexample: for a submitted loader with total 3 and
pending 0 (reachable when all three requests resolve synchronously at
the first tick, so the state is still Loading and update_boot takes its
progress branch), the implementation feeds (3 - 0 + 1) / 3 = 4/3 to the
smoother, while the spec formula says 1. -/
theorem upper_bound_pending_zero_mismatch :
    upperBound c3loader = 4 / 3 ∧ specUpperBound c3loader = 1 ∧
    upperBound c3loader ≠ specUpperBound c3loader := by
  refine ⟨?_, ?_, ?_⟩ <;>
    norm_num [upperBound, specUpperBound, c3loader, Loader.total_count,
      Loader.pending_count]

/-- Claim C5, counterexample: a submitted one-request batch whose
backend reports the request failed (terminal) from the start. The first
tick resolves it synchronously: pending_count drops to 0 as claimed,
but the state never leaves Loading, is_done stays false, and every
further tick is the identity, so repeated ticking never makes is_done
true. -/
theorem sync_terminal_batch_never_done :
    c5run = Except.ok c5stuck ∧ c5stuck.pending_count = 0 ∧
    c5stuck.is_done = false ∧ c5stuck.tick bAllFailed = c5stuck :=
  ⟨rfl, rfl, rfl, rfl⟩

/-- Claim C7, counterexample: enqueueing the same path twice from the
fresh loader puts it twice in the request queue, so a key can occur
more than once in a queue. -/
theorem duplicate_enqueue_duplicate_key :
    c7run = Except.ok c7dup ∧ ¬ QueuesOk c7dup :=
  ⟨rfl, by simp [QueuesOk, tracked, c7dup]⟩

/-- Claim C8, counterexample: after a successful submit (total 1) and a
tick that drains the request queue, a second submit is a contract
violation, but it overwrites total with the now empty request queue
length before its assertion fires: the failed call changes total from 1
to 0. -/
theorem failed_submit_overwrites_total :
    c8mid.map (fun l => l.total_count) = Except.ok 1 ∧
    c8run = Except.error
      { state := State.Loading, count := 1, total := 0,
        request_queue := [], work_queue := ["a"], complete_queue := [] } :=
  ⟨rfl, rfl⟩

/-- Claim C9: tick does not require Loading. Ticked while Ready, the
loader drains its request queue and hands the unsubmitted request a to
the backend (a moves to the work queue). Enqueueing b and submitting
then freezes total at 1 while pending_count is 2, and progress hits the
underflowing usize subtraction total - pending, modelled as none
instead of a ratio in [0, 1]. -/
theorem tick_in_ready_pending_exceeds_total :
    c9afterTick = Except.ok
      { state := State.Ready, count := 1, total := 0,
        request_queue := [], work_queue := ["a"], complete_queue := [] } ∧
    c9run = Except.ok
      { state := State.Loading, count := 2, total := 1,
        request_queue := ["b"], work_queue := ["a"], complete_queue := [] } ∧
    c9run.map (fun l => (l.pending_count, l.total_count, l.progress))
      = Except.ok (2, 1, none) :=
  ⟨rfl, rfl, rfl⟩

/-- Claim C10: reset while Ready is a complete no-op, even when requests
are already enqueued: the guard of reset only clears when the state is
not Ready. -/
theorem reset_ready_noop (l : Loader) (h : l.state = State.Ready) :
    l.reset = l := by
  simp [Loader.reset, h]

/-- Witness for claim C10: a Ready loader with one enqueued request and
pending_count 1 is left untouched by reset. -/
theorem reset_ready_noop_witness :
    c10loader.reset = c10loader ∧ c10loader.pending_count = 1 :=
  ⟨reset_ready_noop c10loader rfl, rfl⟩

/-- Claim C4, counterexample: raw 1 for half a second brings the
smoothed value to 1/2; raw 0 with a time delta of two seconds then
overshoots downward to -1/2, outside [0, 1]. -/
theorem smoothed_progress_escapes_unit_interval :
    ((Boot.new.set_progress 1 (1 / 2)).set_progress 0 2).smoothed_progress
      = -(1 / 2) := by
  norm_num [Boot.set_progress, Boot.new]

/-- Claim C6: immediately after every update, the smoothed value is at
most the clamped raw value, because set_progress caps it by min against
the stored progress. -/
theorem smoothed_progress_le_progress (b : Boot) (raw dt : ℚ) :
    (b.set_progress raw dt).smoothed_progress ≤ (b.set_progress raw dt).progress := by
  simp only [Boot.set_progress]
  exact min_le_right _ _

/-- Once the work scan has set the state to Done, it stays Done. -/
theorem tickWork_state_done (b : Backend) (ps : List String) (l : Loader)
    (h : l.state = State.Done) :
    (Loader.tickWork b ps l).state = State.Done := by
  induction ps generalizing l with
  | nil => simpa [Loader.tickWork] using h
  | cons p rest ih =>
    by_cases hb : b p = LoadState.Loaded ∨ b p = LoadState.Failed
    · rw [Loader.tickWork, if_pos hb]
      apply ih
      simp [h]
    · rw [Loader.tickWork, if_neg hb]
      exact ih l h

/-- If the work scan starts with a positive count and ends with count
zero, the fetch_sub that returned 1 happened during the scan, so the
state ends up Done. -/
theorem tickWork_pending_zero_done (b : Backend) (ps : List String) (l : Loader)
    (hc : 0 < l.count) (h0 : (Loader.tickWork b ps l).count = 0) :
    (Loader.tickWork b ps l).state = State.Done := by
  induction ps generalizing l with
  | nil =>
    rw [Loader.tickWork] at h0
    omega
  | cons p rest ih =>
    by_cases hb : b p = LoadState.Loaded ∨ b p = LoadState.Failed
    · rw [Loader.tickWork, if_pos hb] at h0 ⊢
      by_cases h1 : l.count = 1
      · apply tickWork_state_done
        simp [h1]
      · apply ih
        · show 0 < usizeSub l.count
          unfold usizeSub
          rw [if_neg (by omega : ¬ l.count = 0)]
          omega
        · exact h0
    · rw [Loader.tickWork, if_neg hb] at h0 ⊢
      exact ih l hc h0

/-- Claim C1, amended: once submitted, a tick that brings pending_count
to zero does make the state Done provided the request queue is empty at
tick time, i.e. every pending request already sits on the work queue,
because only the work-queue scan carries the Done transition. The claim
as stated fails for an empty submitted batch and for requests the
backend resolves synchronously during the request drain, both of which
leave the state Loading with pending_count zero. -/
theorem pending_zero_done_with_requests_drained (b : Backend) (l : Loader)
    (_hs : l.state = State.Loading) (hr : l.request_queue = [])
    (hc : 0 < l.pending_count) (h0 : (l.tick b).pending_count = 0) :
    (l.tick b).is_done = true := by
  have ht : l.tick b
      = { Loader.tickWork b l.work_queue { l with work_queue := [] } with
          request_queue := [] } := by
    simp only [Loader.tick, hr, Loader.tickRequests]
  rw [ht, Loader.pending_count] at h0
  rw [Loader.is_done, ht]
  have hd := tickWork_pending_zero_done b l.work_queue { l with work_queue := [] }
    (by simpa [Loader.pending_count] using hc) h0
  simp [hd]

/-- Witness for the amended claim C1: a submitted loader whose single
request is on the work queue, ticked while the backend reports it
loaded, ends with pending_count zero and is_done true. -/
theorem pending_zero_done_with_requests_drained_witness :
    (c1work.tick bAllLoaded).is_done = true :=
  pending_zero_done_with_requests_drained bAllLoaded c1work rfl rfl
    (by decide) (by decide)

/-- The work scan never touches the total. -/
theorem tickWork_total_eq (b : Backend) (ps : List String) (l : Loader) :
    (Loader.tickWork b ps l).total = l.total := by
  induction ps generalizing l with
  | nil => simp [Loader.tickWork]
  | cons p rest ih =>
    by_cases hb : b p = LoadState.Loaded ∨ b p = LoadState.Failed <;>
      simp [Loader.tickWork, hb, ih]

/-- The request drain never touches the total. -/
theorem tickRequests_total_eq (b : Backend) (ps : List String) (l : Loader) :
    (Loader.tickRequests b ps l).total = l.total := by
  induction ps generalizing l with
  | nil => simp [Loader.tickRequests]
  | cons p rest ih =>
    cases hb : b p <;> simp [Loader.tickRequests, hb, ih]

/-- tick never touches the total. -/
theorem tick_total_eq (l : Loader) (b : Backend) :
    (l.tick b).total = l.total := by
  simp [Loader.tick, tickRequests_total_eq, tickWork_total_eq]

/-- Claim C8, amended: between a successful submit and the next reset,
total is unchanged by tick, by take, and by a failed enqueue, which
asserts before mutating anything; but a submit while not Ready
overwrites total with the current request queue length before its
assertion fires, so a failed submit does change total (for example to
zero once a tick has drained the request queue). -/
theorem total_stable_between_submit_and_reset :
    (∀ (l : Loader) (b : Backend), (l.tick b).total_count = l.total_count) ∧
    (∀ (l : Loader) (k : String), ((l.take k).2).total_count = l.total_count) ∧
    (∀ (l : Loader) (k : String), l.state ≠ State.Ready →
      l.enqueue k = Except.error l) ∧
    (∀ l : Loader, l.state ≠ State.Ready →
      l.submit = Except.error { l with total := l.request_queue.length }) := by
  refine ⟨?_, ?_, ?_, ?_⟩
  · intro l b
    simp [Loader.total_count, tick_total_eq]
  · intro l k
    simp only [Loader.take, Loader.total_count]
    split <;> rfl
  · intro l k h
    rw [Loader.enqueue, if_neg h]
  · intro l h
    simp only [Loader.submit]
    rw [if_neg h]

/-- Witness for the amended claim C8: on a submitted loader with one
request on the work queue, tick keeps total_count, and a second submit
fails carrying total overwritten with the request queue length. -/
theorem total_stable_between_submit_and_reset_witness :
    (c8work.tick bAllLoading).total_count = c8work.total_count ∧
    c8work.submit
      = Except.error { c8work with total := c8work.request_queue.length } :=
  ⟨total_stable_between_submit_and_reset.1 c8work bAllLoading,
   total_stable_between_submit_and_reset.2.2.2 c8work (by decide)⟩

/-- Claim C3, amended: the upper-bound value fed to the smoother equals
(total - pending + 1) / total whenever total > 0 and pending < total,
including pending = 0 where it exceeds 1, and equals 1 exactly when
total = 0 or pending >= total. The spec formula returns 1 at
pending = 0, which the implementation does not. -/
theorem upper_bound_formula (l : Loader) :
    (0 < l.total_count → l.pending_count < l.total_count →
      upperBound l
        = ((l.total_count - l.pending_count + 1 : Nat) : ℚ) / (l.total_count : ℚ)) ∧
    (0 < l.total_count → l.pending_count = 0 → 1 < upperBound l) ∧
    ((l.total_count = 0 ∨ l.total_count ≤ l.pending_count) → upperBound l = 1) := by
  refine ⟨?_, ?_, ?_⟩
  · intro h1 h2
    simp only [upperBound]
    rw [if_pos ⟨h1, h2⟩]
  · intro h1 h2
    simp only [upperBound]
    rw [if_pos ⟨h1, by omega⟩, h2]
    rw [one_lt_div (by exact_mod_cast h1)]
    rw [Nat.sub_zero]
    push_cast
    linarith
  · intro h
    simp only [upperBound]
    rw [if_neg]
    rintro ⟨ha, hb⟩
    omega

/-- Witness for the amended claim C3: a mid-flight loader with total 3
and pending 1 gets (3 - 1 + 1) / 3, and a loader with total 3 and
pending 0 gets a value above 1. -/
theorem upper_bound_formula_witness :
    upperBound c3wit
      = ((c3wit.total_count - c3wit.pending_count + 1 : Nat) : ℚ)
          / (c3wit.total_count : ℚ) ∧
    1 < upperBound c3loader :=
  ⟨(upper_bound_formula c3wit).1 (by decide) (by decide),
   (upper_bound_formula c3loader).2.1 (by decide) rfl⟩

/-- set_progress never changes the speed. -/
theorem set_progress_speed_eq (b : Boot) (raw dt : ℚ) :
    (b.set_progress raw dt).speed = b.speed := rfl

/-- One update keeps the smoothed value inside [0, 1] when the time
delta does not exceed the speed. -/
theorem set_progress_unit_step (b : Boot) (raw dt : ℚ) (hsp : 0 < b.speed)
    (h0 : 0 ≤ b.smoothed_progress) (_h1 : b.smoothed_progress ≤ 1)
    (hdt0 : 0 ≤ dt) (hdts : dt ≤ b.speed) :
    0 ≤ (b.set_progress raw dt).smoothed_progress ∧
    (b.set_progress raw dt).smoothed_progress ≤ 1 := by
  simp only [Boot.set_progress]
  set p := if raw < 0 then 0 else if 1 < raw then 1 else raw with hp
  have hp0 : 0 ≤ p := by rw [hp]; split_ifs <;> linarith
  have hp1 : p ≤ 1 := by rw [hp]; split_ifs <;> linarith
  constructor
  · apply le_min ?_ hp0
    have key : b.smoothed_progress + dt * ((p - b.smoothed_progress) / b.speed)
        = (b.smoothed_progress * (b.speed - dt) + dt * p) / b.speed := by
      field_simp
      ring
    rw [key]
    apply div_nonneg ?_ (le_of_lt hsp)
    have ha := mul_nonneg h0 (sub_nonneg.mpr hdts)
    have hb2 := mul_nonneg hdt0 hp0
    linarith
  · exact le_trans (min_le_right _ _) hp1

/-- Claim C4, amended: for every update sequence in which each time
delta lies in [0, speed], the smoothed value stays inside [0, 1]; with
a larger time delta a single update can overshoot downward and leave
the interval. -/
theorem smoothed_progress_unit_of_dt_le_speed (b : Boot) (steps : List (ℚ × ℚ))
    (hsp : 0 < b.speed) (h0 : 0 ≤ b.smoothed_progress)
    (h1 : b.smoothed_progress ≤ 1)
    (hsteps : ∀ s ∈ steps, 0 ≤ s.2 ∧ s.2 ≤ b.speed) :
    0 ≤ (runUpdates b steps).smoothed_progress ∧
    (runUpdates b steps).smoothed_progress ≤ 1 := by
  induction steps generalizing b with
  | nil => exact ⟨h0, h1⟩
  | cons s rest ih =>
    have hd := hsteps s (List.mem_cons_self s rest)
    have hstep := set_progress_unit_step b s.1 s.2 hsp h0 h1 hd.1 hd.2
    have hrw : runUpdates b (s :: rest) = runUpdates (b.set_progress s.1 s.2) rest := rfl
    rw [hrw]
    refine ih (b.set_progress s.1 s.2) ?_ hstep.1 hstep.2 ?_
    · rw [set_progress_speed_eq]
      exact hsp
    · intro t ht
      rw [set_progress_speed_eq]
      exact hsteps t (List.mem_cons_of_mem s ht)

/-- Witness for the amended claim C4: a fresh Boot updated with raw 1
over half a second stays inside [0, 1]. -/
theorem smoothed_progress_unit_of_dt_le_speed_witness :
    0 ≤ (runUpdates Boot.new [(1, 1 / 2)]).smoothed_progress ∧
    (runUpdates Boot.new [(1, 1 / 2)]).smoothed_progress ≤ 1 :=
  smoothed_progress_unit_of_dt_le_speed Boot.new [(1, 1 / 2)]
    (by norm_num [Boot.new]) (by norm_num [Boot.new]) (by norm_num [Boot.new])
    (by
      intro s hs
      simp only [List.mem_singleton] at hs
      subst hs
      norm_num [Boot.new])

/-- Draining requests whose backend state is NotLoaded or Loading just
appends them, in order, to the work queue. -/
theorem tickRequests_nonterminal (b : Backend) (ps : List String) (l : Loader)
    (h : ∀ p ∈ ps, b p = LoadState.NotLoaded ∨ b p = LoadState.Loading) :
    Loader.tickRequests b ps l = { l with work_queue := l.work_queue ++ ps } := by
  induction ps generalizing l with
  | nil => simp [Loader.tickRequests]
  | cons p rest ih =>
    have hrest : ∀ q ∈ rest, b q = LoadState.NotLoaded ∨ b q = LoadState.Loading :=
      fun q hq => h q (List.mem_cons_of_mem p hq)
    rcases h p (List.mem_cons_self p rest) with h1 | h1 <;>
    · rw [Loader.tickRequests, h1]
      rw [ih _ hrest]
      simp

/-- Scanning a nonempty work queue whose entries all report Loaded or
Failed, starting from a count equal to the number of entries, resolves
every entry: the state ends Done, the count ends zero, and the work
queue, request queue and total of the accumulator are untouched. -/
theorem tickWork_terminal_resolves (b : Backend) (ps : List String) (l : Loader)
    (hterm : ∀ p ∈ ps, b p = LoadState.Loaded ∨ b p = LoadState.Failed)
    (hcount : l.count = ps.length) (hne : ps ≠ []) :
    (Loader.tickWork b ps l).state = State.Done ∧
    (Loader.tickWork b ps l).count = 0 ∧
    (Loader.tickWork b ps l).work_queue = l.work_queue ∧
    (Loader.tickWork b ps l).request_queue = l.request_queue ∧
    (Loader.tickWork b ps l).total = l.total := by
  induction ps generalizing l with
  | nil => exact absurd rfl hne
  | cons p rest ih =>
    have hb : b p = LoadState.Loaded ∨ b p = LoadState.Failed :=
      hterm p (List.mem_cons_self p rest)
    rw [Loader.tickWork, if_pos hb]
    rcases eq_or_ne rest [] with hr | hr
    · subst hr
      have h1 : l.count = 1 := by simpa using hcount
      rw [Loader.tickWork]
      refine ⟨by simp [h1], by simp [h1, usizeSub], rfl, rfl, rfl⟩
    · have hlen : l.count = rest.length + 1 := by simpa using hcount
      have hc2 : usizeSub l.count = rest.length := by
        unfold usizeSub
        rw [if_neg (by omega)]
        omega
      exact ih _ (fun q hq => hterm q (List.mem_cons_of_mem p hq)) hc2 hr

/-- A tick with nothing on the work queue and nothing on the request
queue changes nothing. -/
theorem tick_fixed (l : Loader) (b : Backend) (hw : l.work_queue = [])
    (hr : l.request_queue = []) : l.tick b = l := by
  obtain ⟨st, c, t, rq, wq, cq⟩ := l
  dsimp only at hw hr
  subst hw
  subst hr
  rfl

/-- Claim C5, amended: a submitted nonempty batch whose requests first
enter the work queue (a tick under a backend reporting all of them
NotLoaded or Loading) and are then all reported Loaded or Failed is
driven by the next tick to pending_count zero and is_done true, and
further ticks change nothing. As stated the claim fails: requests that
the backend already reports terminal when first drained resolve
synchronously, skipping the Done transition, so is_done never becomes
true; and a work-queue entry reported Unloaded is not treated as
terminal by the scan. -/
theorem terminal_work_batch_done_idempotent (ks : List String) (b1 b2 : Backend)
    (hne : ks ≠ [])
    (h1 : ∀ k ∈ ks, b1 k = LoadState.NotLoaded ∨ b1 k = LoadState.Loading)
    (h2 : ∀ k ∈ ks, b2 k = LoadState.Loaded ∨ b2 k = LoadState.Failed) :
    let l0 : Loader :=
      { state := State.Loading, count := ks.length, total := ks.length,
        request_queue := ks, work_queue := [], complete_queue := [] }
    ((l0.tick b1).tick b2).pending_count = 0 ∧
    ((l0.tick b1).tick b2).is_done = true ∧
    ((l0.tick b1).tick b2).tick b2 = (l0.tick b1).tick b2 := by
  intro l0
  have hl1 : l0.tick b1
      = { state := State.Loading, count := ks.length, total := ks.length,
          request_queue := [], work_queue := ks, complete_queue := [] } := by
    show Loader.tickRequests b1 ks _ = _
    rw [tickRequests_nonterminal b1 ks _ h1]
    rfl
  rw [hl1]
  obtain ⟨hst, hcnt, hw, hrq, htot⟩ := tickWork_terminal_resolves b2 ks
    { state := State.Loading, count := ks.length, total := ks.length,
      request_queue := [], work_queue := [], complete_queue := [] } h2 rfl hne
  have h2' : Loader.tick
      { state := State.Loading, count := ks.length, total := ks.length,
        request_queue := [], work_queue := ks, complete_queue := [] } b2
      = { Loader.tickWork b2 ks
            { state := State.Loading, count := ks.length, total := ks.length,
              request_queue := [], work_queue := [], complete_queue := [] } with
          request_queue := [] } := rfl
  rw [h2']
  refine ⟨hcnt, ?_, ?_⟩
  · simp [Loader.is_done, hst]
  · exact tick_fixed _ b2 hw rfl

/-- Witness for the amended claim C5: one submitted request, first
ticked while loading, then ticked once loaded: pending_count 0, is_done
true, and a further tick is the identity. -/
theorem terminal_work_batch_done_idempotent_witness :
    ((({ state := State.Loading, count := ["x"].length, total := ["x"].length,
         request_queue := ["x"], work_queue := [],
         complete_queue := [] } : Loader).tick bAllLoading).tick bAllLoaded).pending_count = 0 ∧
    ((({ state := State.Loading, count := ["x"].length, total := ["x"].length,
         request_queue := ["x"], work_queue := [],
         complete_queue := [] } : Loader).tick bAllLoading).tick bAllLoaded).is_done = true ∧
    ((({ state := State.Loading, count := ["x"].length, total := ["x"].length,
         request_queue := ["x"], work_queue := [],
         complete_queue := [] } : Loader).tick bAllLoading).tick bAllLoaded).tick bAllLoaded
      = (({ state := State.Loading, count := ["x"].length, total := ["x"].length,
            request_queue := ["x"], work_queue := [],
            complete_queue := [] } : Loader).tick bAllLoading).tick bAllLoaded :=
  terminal_work_batch_done_idempotent ["x"] bAllLoading bAllLoaded
    (by simp) (fun k _ => Or.inr rfl) (fun k _ => Or.inl rfl)

/-- The work scan never touches the request queue. -/
theorem tickWork_request_eq (b : Backend) (ps : List String) (l : Loader) :
    (Loader.tickWork b ps l).request_queue = l.request_queue := by
  induction ps generalizing l with
  | nil => simp [Loader.tickWork]
  | cons p rest ih =>
    by_cases hb : b p = LoadState.Loaded ∨ b p = LoadState.Failed <;>
      simp [Loader.tickWork, hb, ih]

/-- The request drain never touches the request queue it was handed the
snapshot of. -/
theorem tickRequests_request_eq (b : Backend) (ps : List String) (l : Loader) :
    (Loader.tickRequests b ps l).request_queue = l.request_queue := by
  induction ps generalizing l with
  | nil => simp [Loader.tickRequests]
  | cons p rest ih =>
    cases hb : b p <;> simp [Loader.tickRequests, hb, ih]

/-- The request drain never touches the complete queue. -/
theorem tickRequests_complete_eq (b : Backend) (ps : List String) (l : Loader) :
    (Loader.tickRequests b ps l).complete_queue = l.complete_queue := by
  induction ps generalizing l with
  | nil => simp [Loader.tickRequests]
  | cons p rest ih =>
    cases hb : b p <;> simp [Loader.tickRequests, hb, ih]

/-- The request drain appends exactly the drained paths whose fresh
backend state keeps them in flight. -/
theorem tickRequests_work_eq (b : Backend) (ps : List String) (l : Loader) :
    (Loader.tickRequests b ps l).work_queue
      = l.work_queue ++ ps.filter (wantsWork b) := by
  induction ps generalizing l with
  | nil => simp [Loader.tickRequests]
  | cons p rest ih =>
    cases hb : b p <;>
      simp [Loader.tickRequests, hb, ih, wantsWork, List.filter_cons]

/-- The work scan redistributes its entries: kept entries stay on the
work queue, resolved entries land in the complete queue, and nothing
else appears; stated as a permutation, assuming the scanned entries are
disjoint from the complete queue. -/
theorem tickWork_perm (b : Backend) (ps : List String) (l : Loader)
    (h : (ps ++ l.complete_queue).Nodup) :
    List.Perm
      ((Loader.tickWork b ps l).work_queue ++ (Loader.tickWork b ps l).complete_queue)
      (ps ++ (l.work_queue ++ l.complete_queue)) := by
  induction ps generalizing l with
  | nil => simp [Loader.tickWork]
  | cons p rest ih =>
    have h' : (p :: (rest ++ l.complete_queue)).Nodup := by simpa using h
    obtain ⟨hpnot, hnd⟩ := List.nodup_cons.mp h'
    by_cases hb : b p = LoadState.Loaded ∨ b p = LoadState.Failed
    · rw [Loader.tickWork, if_pos hb]
      have hp : p ∉ l.complete_queue := fun hm => hpnot (List.mem_append_right rest hm)
      have hins : insertKey p l.complete_queue = p :: l.complete_queue := by
        rw [insertKey, if_neg hp]
      have hnd2 : (rest ++ (p :: l.complete_queue)).Nodup :=
        (List.perm_middle.nodup_iff).mpr h'
      have hmain := ih { l with complete_queue := insertKey p l.complete_queue,
                                state := if l.count = 1 then State.Done else l.state,
                                count := usizeSub l.count } (by simpa [hins] using hnd2)
      refine List.Perm.trans (by simpa [hins] using hmain) ?_
      refine List.Perm.trans (List.Perm.append_left rest List.perm_middle) ?_
      exact List.perm_middle
    · rw [Loader.tickWork, if_neg hb]
      exact List.Perm.cons p (ih l hnd)

/-- tick preserves queue sanity: with a sane loader, the reshuffled
queues after a tick still hold every path at most once in at most one
queue. -/
theorem tick_queues_ok (l : Loader) (b : Backend) (h : QueuesOk l) :
    QueuesOk (l.tick b) := by
  unfold QueuesOk tracked at h ⊢
  rw [List.nodup_append] at h
  obtain ⟨hrnd, hwcnd, hdisj⟩ := h
  have hreq : (l.tick b).request_queue = [] := by
    simp [Loader.tick, tickRequests_request_eq]
  have hwork : (l.tick b).work_queue
      = (Loader.tickWork b l.work_queue { l with work_queue := [] }).work_queue
        ++ l.request_queue.filter (wantsWork b) := by
    simp [Loader.tick, tickRequests_work_eq]
  have hcomp : (l.tick b).complete_queue
      = (Loader.tickWork b l.work_queue { l with work_queue := [] }).complete_queue := by
    simp [Loader.tick, tickRequests_complete_eq]
  rw [hreq, hwork, hcomp, List.nil_append]
  have hperm : List.Perm
      ((Loader.tickWork b l.work_queue { l with work_queue := [] }).work_queue
        ++ (Loader.tickWork b l.work_queue { l with work_queue := [] }).complete_queue)
      (l.work_queue ++ l.complete_queue) := by
    have hstep := tickWork_perm b l.work_queue { l with work_queue := [] }
      (by simpa using hwcnd)
    simpa using hstep
  have hTnd : ((Loader.tickWork b l.work_queue { l with work_queue := [] }).work_queue
      ++ (Loader.tickWork b l.work_queue { l with work_queue := [] }).complete_queue).Nodup :=
    hperm.nodup_iff.mpr hwcnd
  have hfnd : (l.request_queue.filter (wantsWork b)).Nodup :=
    hrnd.sublist (List.filter_sublist l.request_queue)
  have hdisj2 : ((Loader.tickWork b l.work_queue { l with work_queue := [] }).work_queue
      ++ (Loader.tickWork b l.work_queue { l with work_queue := [] }).complete_queue).Disjoint
      (l.request_queue.filter (wantsWork b)) := by
    intro x hx hxf
    exact hdisj (List.mem_of_mem_filter hxf) (hperm.subset hx)
  have hknown : (((Loader.tickWork b l.work_queue { l with work_queue := [] }).work_queue
      ++ (Loader.tickWork b l.work_queue { l with work_queue := [] }).complete_queue)
      ++ l.request_queue.filter (wantsWork b)).Nodup :=
    List.nodup_append.mpr ⟨hTnd, hfnd, hdisj2⟩
  have hgp : List.Perm
      (((Loader.tickWork b l.work_queue { l with work_queue := [] }).work_queue
          ++ l.request_queue.filter (wantsWork b))
        ++ (Loader.tickWork b l.work_queue { l with work_queue := [] }).complete_queue)
      (((Loader.tickWork b l.work_queue { l with work_queue := [] }).work_queue
          ++ (Loader.tickWork b l.work_queue { l with work_queue := [] }).complete_queue)
        ++ l.request_queue.filter (wantsWork b)) := by
    rw [List.append_assoc, List.append_assoc]
    exact List.Perm.append_left _ List.perm_append_comm
  exact hgp.nodup_iff.mpr hknown

/-- Claim C7, amended: along every non-panicking operation (with
enqueue restricted to paths the loader does not already track), a path
occurs at most once across the request, work and complete queues. As
stated the claim fails: enqueue gladly accepts a path already tracked,
and in particular enqueueing the same path twice duplicates it inside
the request queue. -/
theorem step_preserves_queues_ok (l l' : Loader) (hs : Step l l')
    (h : QueuesOk l) : QueuesOk l' := by
  cases hs
  case enqueue k hfresh henq =>
    unfold Loader.enqueue at henq
    by_cases hst : l.state = State.Ready
    · rw [if_pos hst] at henq
      simp only [Except.ok.injEq] at henq
      rw [← henq]
      unfold QueuesOk tracked at h ⊢
      have hgp : List.Perm
          ((l.request_queue ++ [k]) ++ (l.work_queue ++ l.complete_queue))
          (k :: (l.request_queue ++ (l.work_queue ++ l.complete_queue))) := by
        refine List.Perm.trans
          (List.Perm.append_right _ List.perm_append_comm) ?_
        exact List.Perm.refl _
      refine hgp.nodup_iff.mpr ?_
      exact List.nodup_cons.mpr ⟨hfresh, h⟩
    · rw [if_neg hst] at henq
      simp at henq
  case submit henq =>
    unfold Loader.submit at henq
    by_cases hst : l.state = State.Ready
    · rw [if_pos hst] at henq
      simp only [Except.ok.injEq] at henq
      rw [← henq]
      exact h
    · rw [if_neg hst] at henq
      simp at henq
  case tick b => exact tick_queues_ok l b h
  case take k =>
    unfold QueuesOk tracked at h ⊢
    rw [Loader.take]
    split
    · exact h.sublist
        ((List.erase_sublist k l.complete_queue).append_left l.work_queue
          |>.append_left l.request_queue)
    · exact h
  case reset =>
    rw [Loader.reset]
    split
    · exact h
    · simp [QueuesOk, tracked]

/-- Witness for the amended claim C7: enqueueing one fresh path from a
fresh loader keeps the queues sane. -/
theorem step_preserves_queues_ok_witness : QueuesOk c7once :=
  step_preserves_queues_ok Loader.new c7once
    (Step.enqueue Loader.new "a" c7once (by simp [tracked, Loader.new]) rfl)
    (by simp [QueuesOk, tracked, Loader.new])
